import Mathlib

/-!
Verification development for the jsmastery-video-control browser extension.

The extension's page-side script (content.js) receives `controlVideo` messages
and drives a chain of DOM heuristics (`performVideoControl`); the coordinator
(background.js) relays keyboard commands and, as a last resort, injects a
self-contained `executeCommandDirectly` routine.  This file gives a shallow
embedding of those routines over an explicit DOM model and proves properties
of the dispatch chain, the matchers, the direct HTML5 media controller, the
re-entrancy/lock guards and the keyboard-suppression handler.

Modelling conventions:
* machine behaviour that cannot throw in the model (synthetic event dispatch,
  `element.click()`) is represented by an effect record and a `true` result,
  matching the code's behaviour on the no-exception path;
* `video.currentTime = x` follows the HTML media-element semantics the code
  relies on: the stored position is `x` clamped to `[0, duration]`;
* times are integers (milliseconds for timestamps, seconds for positions);
* JS string semantics (`toLowerCase`, `includes`, `trim`, `||` falsiness of
  `""`/`null`) are modelled by the helpers below.
-/

namespace VideoControl

/-! ### JS string helpers -/

/-- ASCII lowercase of one character, as `String.prototype.toLowerCase` acts on
the ASCII strings used by the extension. -/
def lowerChar (c : Char) : Char :=
  if 65 ≤ c.toNat ∧ c.toNat ≤ 90 then Char.ofNat (c.toNat + 32) else c

/-- `s.toLowerCase()` on ASCII strings. -/
def lowerStr (s : String) : String := String.mk (s.data.map lowerChar)

/-- Boolean infix (substring) test on character lists. -/
def isInfixList : List Char → List Char → Bool
  | sub, [] => sub.isEmpty
  | sub, c :: rest => sub.isPrefixOf (c :: rest) || isInfixList sub rest

/-- `s.includes(sub)` of JS. -/
def containsStr (s sub : String) : Bool := isInfixList sub.data s.data

/-- JS whitespace for `trim` (the characters that occur in the sources). -/
def isWS (c : Char) : Bool := c = ' ' || c = '\t' || c = '\n' || c = '\r'

/-- `s.trim()` of JS. -/
def trimStr (s : String) : String :=
  String.mk (((s.data.dropWhile isWS).reverse.dropWhile isWS).reverse)

/-- JS truthiness of an attribute read: `null` and `""` are falsy. -/
def truthyStr : Option String → Option String
  | some "" => none
  | o => o

/-- JS `a || b || ""` over two attribute reads. -/
def jsOrStr (a b : Option String) : String :=
  ((truthyStr a).orElse (fun _ => truthyStr b)).getD ""

/-- JS `(x || "")` for a nullable attribute. -/
def optStr (o : Option String) : String := o.getD ""

/-! ### DOM model

A page is modelled by the element collections the scripts query: the flat
`document.querySelectorAll('button')` list, candidate container elements
(control groups / player shells), media elements, and iframes (`none` models
a cross-origin frame whose content is inaccessible).  Each element carries an
identity (`id`) standing for JS reference identity. -/

structure SvgUse where
  href : Option String := none
  xlinkHref : Option String := none
deriving DecidableEq, Repr

/-- A descendant span as seen by `querySelector('.plyr__sr-only')` etc. -/
structure SrSpan where
  classes : List String := []
  text : String := ""
deriving DecidableEq, Repr

structure Button where
  id : Nat
  dataPlyr : Option String := none
  ariaLabel : Option String := none
  title : Option String := none
  textContent : String := ""
  innerHTML : String := ""
  classes : List String := []
  svgUse : Option SvgUse := none
  hasSvgPath : Bool := false
  spans : List SrSpan := []
  ariaHaspopup : Option String := none
  parentAriaHaspopup : Option String := none
  typeAttr : Option String := none
  ariaControls : Option String := none
deriving DecidableEq, Repr

structure Video where
  id : Nat
  paused : Bool := true
  currentTime : Int := 0
  duration : Int := 0
deriving DecidableEq, Repr

/-- A container element; `buttons` are the buttons returned by
`group.querySelectorAll('button')`, in document order. -/
structure Group where
  id : Nat
  classes : List String := []
  buttons : List Button := []
deriving DecidableEq, Repr

structure Doc where
  buttons : List Button := []
  groups : List Group := []
  videos : List Video := []
  iframes : List (Option (List Video)) := []
deriving DecidableEq, Repr

def Button.classNameStr (b : Button) : String := String.intercalate " " b.classes

def Group.classNameStr (g : Group) : String := String.intercalate " " g.classes

def Button.ariaLower (b : Button) : String := lowerStr (optStr b.ariaLabel)

def Button.titleLower (b : Button) : String := lowerStr (optStr b.title)

def Button.textLower (b : Button) : String := lowerStr b.textContent

/-- The svg use href as read by the pattern matcher:
`(svgUse.getAttribute('xlink:href') || svgUse.getAttribute('href') || "").toLowerCase()`. -/
def Button.svgHrefPattern (b : Button) : String :=
  match b.svgUse with
  | some u => lowerStr (jsOrStr u.xlinkHref u.href)
  | none => ""

/-- The svg use href as read by `findExactButton` and the fallbacks:
`svgUse.getAttribute('href') || svgUse.getAttribute('xlink:href') || ""`. -/
def Button.svgHrefExact (b : Button) : String :=
  match b.svgUse with
  | some u => jsOrStr u.href u.xlinkHref
  | none => ""

/-- `btn.querySelector('.plyr__sr-only')`. -/
def Button.querySrOnlyPlyr (b : Button) : Option SrSpan :=
  b.spans.find? (fun s => s.classes.contains "plyr__sr-only")

/-- `btn.querySelector('.plyr__sr-only, .sr-only')`. -/
def Button.querySrOnlyAny (b : Button) : Option SrSpan :=
  b.spans.find? (fun s => s.classes.contains "plyr__sr-only" || s.classes.contains "sr-only")

def Group.hasClass (g : Group) (c : String) : Bool := g.classes.contains c

/-- `[class*="s"]` on a group: substring match against the class attribute. -/
def Group.classSub (g : Group) (s : String) : Bool := containsStr g.classNameStr s

def Button.hasClassB (b : Button) (c : String) : Bool := b.classes.contains c

def Button.classSubB (b : Button) (s : String) : Bool := containsStr b.classNameStr s

/-- `[aria-label*="s"]` (case-sensitive attribute substring selector). -/
def Button.ariaSub (b : Button) (s : String) : Bool :=
  match b.ariaLabel with
  | some a => containsStr a s
  | none => false

/-- `[title*="s"]`. -/
def Button.titleSub (b : Button) (s : String) : Bool :=
  match b.title with
  | some t => containsStr t s
  | none => false

/-! ### Effects

Strategies report a boolean outcome plus the observable actions they took. -/

inductive KeyTarget
  | videoEl (id : Nat)
  | groupEl (id : Nat)
  | documentEl
deriving DecidableEq, Repr

structure KeyEv where
  etype : String
  key : String
  keyCode : Nat
  target : KeyTarget
  delay : Nat
deriving DecidableEq, Repr

structure StratOut where
  result : Bool
  clicks : List Nat := []
  seeks : List (Nat × Int) := []
  plays : List Nat := []
  pauses : List Nat := []
  keys : List KeyEv := []
  cacheOut : Option Video := none
deriving DecidableEq, Repr

/-- content.js `tryButtonClick`: clicks the button; on the no-exception path it
always returns `true`. -/
def tryButtonClick (b : Button) : StratOut := { result := true, clicks := [b.id] }

/-! ### content.js `findExactButton` (lines 1225-1268) -/

def dataPlyrValue (cmd : String) : Option String :=
  if cmd == "play-pause" then some "play"
  else if cmd == "rewind" then some "rewind"
  else if cmd == "fast-forward" then some "fast-forward"
  else none

def exactSpanMatch (cmd : String) (b : Button) : Bool :=
  match b.querySrOnlyPlyr with
  | some s =>
    (cmd == "rewind" && trimStr s.text == "Rewind 10s") ||
    (cmd == "fast-forward" && trimStr s.text == "Forward 10s") ||
    (cmd == "play-pause" && (trimStr s.text == "Play" || trimStr s.text == "Pause"))
  | none => false

def findExactButton (doc : Doc) (cmd : String) : Option Button :=
  match dataPlyrValue cmd with
  | none => none
  | some v =>
    match doc.buttons.find? (fun b => b.dataPlyr == some v) with
    | some b => some b
    | none =>
      doc.buttons.find? (fun b =>
        (match b.svgUse with
         | some _ => b.svgHrefExact == "#plyr-" ++ v
         | none => false) ||
        exactSpanMatch cmd b)

/-! ### content.js pattern tier (lines 129-240, 391-447) -/

/-- The "buttons we NEVER want to click" filter of the pattern tier. -/
def neverClickPattern (b : Button) : Bool :=
  containsStr b.textLower "next lesson" ||
  containsStr b.textLower "check answer" ||
  containsStr b.ariaLower "next lesson" ||
  containsStr b.textLower "search" ||
  containsStr b.ariaLower "notification" ||
  (b.hasSvgPath && b.svgHrefPattern == "")

def playPauseMatch (b : Button) : Bool :=
  b.dataPlyr == some "play" ||
  containsStr b.ariaLower "play" || containsStr b.ariaLower "pause" ||
  containsStr b.titleLower "play" || containsStr b.titleLower "pause" ||
  containsStr b.textLower "play" || containsStr b.textLower "pause" ||
  containsStr b.svgHrefPattern "plyr-play" || containsStr b.svgHrefPattern "plyr-pause"

def rewindMatch (b : Button) : Bool :=
  b.dataPlyr == some "rewind" ||
  containsStr b.ariaLower "rewind" ||
  containsStr b.titleLower "rewind" ||
  containsStr b.textLower "rewind" ||
  containsStr b.svgHrefPattern "plyr-rewind"

def fastForwardPositive (b : Button) : Bool :=
  b.dataPlyr == some "fast-forward" ||
  b.ariaLower == "forward 10s" ||
  b.titleLower == "forward 10s" ||
  containsStr b.svgHrefPattern "plyr-fast-forward" ||
  (match b.querySrOnlyPlyr with
   | some s => trimStr s.text == "Forward 10s"
   | none => false)

/-- The "Ensure we're NOT matching a rewind button" clause of the
fast-forward branch (content.js lines 196-206). -/
def ffRewindExclusion (b : Button) : Bool :=
  b.dataPlyr == some "rewind" ||
  containsStr b.ariaLower "rewind" ||
  containsStr b.titleLower "rewind" ||
  containsStr b.textLower "rewind" ||
  containsStr b.svgHrefPattern "plyr-rewind"

def cmdMatch (cmd : String) (b : Button) : Bool :=
  if cmd == "play-pause" then playPauseMatch b
  else if cmd == "rewind" then rewindMatch b
  else if cmd == "fast-forward" then fastForwardPositive b && !(ffRewindExclusion b)
  else false

def patternButtonMatch (cmd : String) (b : Button) : Bool :=
  !(neverClickPattern b) && cmdMatch cmd b

/-- The ordered `groupSelectors` list of `trySpecificPlayerPatterns`. -/
def groupSelectorList : List (Group → Bool) :=
  [fun g => g.hasClass "plyr__controls",
   fun g => g.hasClass "ytp-left-controls",
   fun g => g.hasClass "ytp-chrome-bottom",
   fun g => g.hasClass "vjs-control-bar",
   fun g => g.hasClass "mejs__controls",
   fun g => g.classSub "video-controls",
   fun g => g.classSub "media-controls",
   fun g => g.classSub "player-controls",
   fun g => g.classSub "controls",
   fun g => g.classSub "Controls"]

/-- content.js `trySpecificPlayerPatterns`: for each selector in order, every
matching group on the page (document order) that has at least one button and
was not already collected is appended.  (The function's trailing dedup pass is
a no-op safeguard, as its own comment notes.) -/
def trySpecificPlayerPatterns (doc : Doc) : List Group :=
  groupSelectorList.foldl
    (fun acc sel =>
      (doc.groups.filter sel).foldl
        (fun acc2 g =>
          if acc2.any (fun p => p.id == g.id) then acc2
          else if g.buttons.isEmpty then acc2
          else acc2 ++ [g])
        acc)
    []

/-- The pattern-tier loop of `performVideoControl` (lines 132-239): for each
pattern group, the first matching button is clicked; on click success the tier
succeeds, otherwise the next group is tried. -/
def patternStage (cmd : String) : List Group → StratOut
  | [] => { result := false }
  | g :: rest =>
    match g.buttons.find? (patternButtonMatch cmd) with
    | some b =>
      let c := tryButtonClick b
      if c.result then c
      else
        let r := patternStage cmd rest
        { r with clicks := c.clicks ++ r.clicks }
    | none => patternStage cmd rest

/-! ### content.js `tryHTML5VideoMethod` (lines 282-388) -/

/-- Iframe probing: the first accessible iframe containing at least one video
supplies the video list; inaccessible (cross-origin) frames are skipped. -/
def findIframeVideos : List (Option (List Video)) → List Video
  | [] => []
  | some vs :: rest => if vs.isEmpty then findIframeVideos rest else vs
  | none :: rest => findIframeVideos rest

def discoverVideos (doc : Doc) : List Video :=
  if doc.videos.isEmpty then findIframeVideos doc.iframes else doc.videos

/-- The selection loop (lines 325-337): the first currently-playing video wins
immediately; otherwise a running strictly-greater duration maximum (seeded
with `videos[0]` and duration 0) is kept. -/
def pickBestVideo : List Video → Video → Int → Video
  | [], best, _ => best
  | v :: rest, best, bd =>
    if !v.paused then v
    else if v.duration > bd then pickBestVideo rest v v.duration
    else pickBestVideo rest best bd

def html5SelectedVideo (doc : Doc) (cache : Option Video) : Option Video :=
  match cache with
  | some v => some v
  | none =>
    match discoverVideos doc with
    | [] => none
    | v0 :: rest => some (pickBestVideo (v0 :: rest) v0 0)

/-- HTML media semantics of assigning `currentTime`: clamp to `[0, duration]`. -/
def seekTo (v : Video) (target : Int) : Int := max 0 (min v.duration target)

def tryHTML5VideoMethod (doc : Doc) (cache : Option Video) (cmd : String) : StratOut :=
  match html5SelectedVideo doc cache with
  | none => { result := false }
  | some v =>
    if cmd == "fast-forward" then
      let t := seekTo v (v.currentTime + 10)
      { result := decide (1 < |t - v.currentTime|),
        seeks := [(v.id, v.currentTime + 10)], cacheOut := some v }
    else if cmd == "rewind" then
      let t := seekTo v (v.currentTime - 10)
      { result := decide (1 < |t - v.currentTime|),
        seeks := [(v.id, v.currentTime - 10)], cacheOut := some v }
    else if cmd == "play-pause" then
      if v.paused then { result := true, plays := [v.id], cacheOut := some v }
      else { result := true, pauses := [v.id], cacheOut := some v }
    else { result := false, cacheOut := some v }

/-! ### content.js command-specific fallbacks (lines 924-1195) -/

/-- Click candidates in order until one click reports success. -/
def clickButtonsUntilSuccess : List Button → StratOut
  | [] => { result := false }
  | b :: rest =>
    let c := tryButtonClick b
    if c.result then c
    else
      let r := clickButtonsUntilSuccess rest
      { r with clicks := c.clicks ++ r.clicks }

/-- `validButtons.includes(btn)` dedup by element identity. -/
def addUnique (acc : List Button) (b : Button) : List Button :=
  if acc.any (fun x => x.id == b.id) then acc else acc ++ [b]

def ffSafeSvg (b : Button) : Bool :=
  match b.svgUse with
  | some _ => b.svgHrefExact == "#plyr-fast-forward"
  | none => false

def ffSafeSpan (b : Button) : Bool :=
  match b.querySrOnlyAny with
  | some s => trimStr s.text == "Forward 10s"
  | none => false

def ffSafeCollect : List Button → List Button → List Button
  | [], acc => acc
  | b :: rest, acc =>
    let acc1 := if ffSafeSvg b then addUnique acc b else acc
    let acc2 := if ffSafeSpan b then addUnique acc1 b else acc1
    ffSafeCollect rest acc2

/-- content.js `tryFastForwardSafely` (lines 924-975): collect
`data-plyr="fast-forward"` buttons, then svg-href / sr-span matches; the first
valid button is clicked and the method returns `true`, otherwise `false`. -/
def tryFastForwardSafely (doc : Doc) : StratOut :=
  let base := doc.buttons.filter (fun b => b.dataPlyr == some "fast-forward")
  let valid := ffSafeCollect doc.buttons base
  match valid with
  | [] => { result := false }
  | b :: _ => { result := true, clicks := [b.id] }

/-- The "skip any non-player buttons" filter of `tryRewindFallback`. -/
def rwSkip (b : Button) : Bool :=
  b.classes.contains "mr-5" ||
  b.ariaHaspopup == some "dialog" ||
  b.parentAriaHaspopup == some "dialog" ||
  containsStr b.textContent "Search"

def rwSvg (b : Button) : Bool :=
  match b.svgUse with
  | some _ => b.svgHrefExact == "#plyr-rewind"
  | none => false

def rwSpan (b : Button) : Bool :=
  match b.querySrOnlyAny with
  | some s => trimStr s.text == "Rewind 10s"
  | none => false

def rwCollect : List Button → List Button → List Button
  | [], acc => acc
  | b :: rest, acc =>
    if rwSkip b then rwCollect rest acc
    else
      let acc1 := if rwSvg b then addUnique acc b else acc
      let acc2 := if rwSpan b then addUnique acc1 b else acc1
      rwCollect rest acc2

/-- content.js `tryRewindFallback` (lines 978-1063). -/
def tryRewindFallback (doc : Doc) : StratOut :=
  match findExactButton doc "rewind" with
  | some b => tryButtonClick b
  | none =>
    let base := doc.buttons.filter (fun b => b.dataPlyr == some "rewind")
    let valid := rwCollect doc.buttons base
    let clicked := clickButtonsUntilSuccess valid
    if clicked.result then clicked
    else
      match doc.videos with
      | [] => { result := false, clicks := clicked.clicks }
      | v :: _ =>
        let t := seekTo v (v.currentTime - 10)
        { result := decide (1 < |t - v.currentTime|),
          clicks := clicked.clicks, seeks := [(v.id, v.currentTime - 10)] }

/-- The "skip any buttons that are definitely not player controls" filter of
`tryPlayPauseFallback`. -/
def ppSkip (b : Button) : Bool :=
  b.typeAttr == some "submit" ||
  b.ariaHaspopup == some "dialog" ||
  b.parentAriaHaspopup == some "dialog" ||
  containsStr b.textContent "Search" ||
  containsStr b.classNameStr "rounded-lg bg-dark-400" ||
  containsStr b.classNameStr "mr-5" ||
  (match b.ariaControls with
   | some s => containsStr s "search"
   | none => false)

def ppSvg (b : Button) : Bool :=
  match b.svgUse with
  | some _ => b.svgHrefExact == "#plyr-play" || b.svgHrefExact == "#plyr-pause"
  | none => false

def ppSpan (b : Button) : Bool :=
  match b.querySrOnlyAny with
  | some s => trimStr s.text == "Play" || trimStr s.text == "Pause"
  | none => false

def ppCollect : List Button → List Button → List Button
  | [], acc => acc
  | b :: rest, acc =>
    if ppSkip b then ppCollect rest acc
    else
      let acc1 := if ppSvg b then addUnique acc b else acc
      let acc2 := if ppSpan b then addUnique acc1 b else acc1
      ppCollect rest acc2

/-- content.js `tryPlayPauseFallback` (lines 1065-1195): exact button, then
collected safe buttons, then direct video toggle, then a space-key press on
the document; the last two paths report `true` unconditionally. -/
def tryPlayPauseFallback (doc : Doc) : StratOut :=
  let direct :=
    match findExactButton doc "play-pause" with
    | some b => tryButtonClick b
    | none => { result := false }
  if direct.result then direct
  else
    let base := doc.buttons.filter (fun b => b.dataPlyr == some "play")
    let valid := ppCollect doc.buttons base
    let clicked := clickButtonsUntilSuccess valid
    if clicked.result then { clicked with clicks := direct.clicks ++ clicked.clicks }
    else
      match doc.videos with
      | v :: _ =>
        if v.paused then
          { result := true, clicks := direct.clicks ++ clicked.clicks, plays := [v.id] }
        else
          { result := true, clicks := direct.clicks ++ clicked.clicks, pauses := [v.id] }
      | [] =>
        { result := true, clicks := direct.clicks ++ clicked.clicks,
          keys := [⟨"keydown", " ", 32, .documentEl, 0⟩, ⟨"keyup", " ", 32, .documentEl, 50⟩] }

/-! ### content.js `tryKeyboardMethod` (lines 794-921) -/

/-- The `keyMap` of `tryKeyboardMethod`: main key, main keyCode, alt key,
alt keyCode, lowercase alt key. -/
def keyMapEntry (cmd : String) : Option (String × Nat × String × Nat × String) :=
  if cmd == "fast-forward" then some ("ArrowRight", 39, "L", 76, "l")
  else if cmd == "rewind" then some ("ArrowLeft", 37, "J", 74, "j")
  else if cmd == "play-pause" then some (" ", 32, "K", 75, "k")
  else none

def playerElSel (g : Group) : Bool :=
  g.hasClass "plyr" || g.hasClass "html5-video-player" || g.hasClass "video-js"

def controlsElSel (g : Group) : Bool :=
  g.hasClass "plyr__controls" || g.hasClass "ytp-chrome-controls" || g.hasClass "vjs-control-bar"

/-- Focus-target selection of `tryKeyboardMethod`: first video, else first
player shell, else first controls bar, else the document. -/
def keyboardTarget (doc : Doc) : KeyTarget :=
  match doc.videos with
  | v :: _ => .videoEl v.id
  | [] =>
    match doc.groups.filter playerElSel with
    | p :: _ => .groupEl p.id
    | [] =>
      match doc.groups.filter controlsElSel with
      | c :: _ => .groupEl c.id
      | [] => .documentEl

/-- One dispatch on the target element followed by one on the document. -/
def keyPair (t : KeyTarget) (etype key : String) (kc : Nat) (d : Nat) : List KeyEv :=
  [⟨etype, key, kc, t, d⟩, ⟨etype, key, kc, .documentEl, d⟩]

/-- content.js `tryKeyboardMethod`: dispatches main keydown/keyup, then the
alternative key and its lowercase form, each keyup 50ms after its keydown,
and returns `true` whenever the command is known, regardless of whether any
player reacted. -/
def tryKeyboardMethod (doc : Doc) (cmd : String) : StratOut :=
  match keyMapEntry cmd with
  | none => { result := false }
  | some (mainKey, mainCode, altKey, altCode, lowKey) =>
    let t := keyboardTarget doc
    { result := true,
      keys :=
        keyPair t "keydown" mainKey mainCode 0 ++
        keyPair t "keyup" mainKey mainCode 50 ++
        keyPair t "keydown" altKey altCode 50 ++
        keyPair t "keyup" altKey altCode 100 ++
        keyPair t "keydown" lowKey altCode 100 ++
        keyPair t "keyup" lowKey altCode 150 }

/-! ### content.js `performVideoControl` (lines 114-279) -/

inductive Strategy
  | exactButton
  | patternGroup
  | html5
  | commandFallback
  | keyboard
deriving DecidableEq, Repr

/-- The dispatcher's priority order. -/
def strategyChain : List Strategy :=
  [.exactButton, .patternGroup, .html5, .commandFallback, .keyboard]

/-- Strategy 1: `findExactButton` + `tryButtonClick` (lines 118-126). -/
def exactButtonStage (doc : Doc) (cmd : String) : StratOut :=
  match findExactButton doc cmd with
  | some b => tryButtonClick b
  | none => { result := false }

/-- Strategy 4: the command-specific final fallbacks (lines 250-268). -/
def commandFallbackStage (doc : Doc) (cmd : String) : StratOut :=
  if cmd == "rewind" then tryRewindFallback doc
  else if cmd == "play-pause" then tryPlayPauseFallback doc
  else if cmd == "fast-forward" then tryFastForwardSafely doc
  else { result := false }

structure PVCResult where
  success : Bool
  strategies : List Strategy
  clicks : List Nat
  seeks : List (Nat × Int)
  plays : List Nat
  pauses : List Nat
  keys : List KeyEv
  cacheOut : Option Video
deriving DecidableEq, Repr

/-- content.js `performVideoControl`: the five strategies in priority order,
returning at the first success; `strategies` records the stages entered. -/
def performVideoControl (doc : Doc) (cache : Option Video) (cmd : String) : PVCResult :=
  let s1 := exactButtonStage doc cmd
  if s1.result then
    ⟨true, [.exactButton], s1.clicks, [], [], [], [], cache⟩
  else
    let s2 := patternStage cmd (trySpecificPlayerPatterns doc)
    if s2.result then
      ⟨true, [.exactButton, .patternGroup], s1.clicks ++ s2.clicks, [], [], [], [], cache⟩
    else
      let h5 := tryHTML5VideoMethod doc cache cmd
      if h5.result then
        ⟨true, [.exactButton, .patternGroup, .html5], s1.clicks ++ s2.clicks ++ h5.clicks,
         h5.seeks, h5.plays, h5.pauses, [], h5.cacheOut⟩
      else
        let s4 := commandFallbackStage doc cmd
        if s4.result then
          ⟨true, [.exactButton, .patternGroup, .html5, .commandFallback],
           s1.clicks ++ s2.clicks ++ h5.clicks ++ s4.clicks,
           h5.seeks ++ s4.seeks, h5.plays ++ s4.plays, h5.pauses ++ s4.pauses,
           s4.keys, h5.cacheOut⟩
        else
          let s5 := tryKeyboardMethod doc cmd
          ⟨s5.result, strategyChain,
           s1.clicks ++ s2.clicks ++ h5.clicks ++ s4.clicks ++ s5.clicks,
           h5.seeks ++ s4.seeks ++ s5.seeks, h5.plays ++ s4.plays, h5.pauses ++ s4.pauses,
           s4.keys ++ s5.keys, h5.cacheOut⟩

/-! ### content.js message listener (lines 17-111) -/

/-- A keyboard event as the page's own handlers would see it. -/
structure KeyEventState where
  defaultPrevented : Bool := false
  propagationStopped : Bool := false
  immediatePropagationStopped : Bool := false
deriving DecidableEq, Repr

/-- content.js `preventDefaultOnce` (lines 46-50). -/
def preventDefaultOnce (_e : KeyEventState) : KeyEventState := ⟨true, true, true⟩

structure Resp where
  success : Bool
  reason : Option String := none
deriving DecidableEq, Repr

/-- The coordinator-to-page message: `{ action, command, timestamp }`. -/
structure Msg where
  action : String
  command : String := ""
  timestamp : Option Int := none
deriving DecidableEq, Repr

/-- The two localStorage slots of the cross-context lock. -/
structure LockStorage where
  lock : Option String := none
  expiry : Option Int := none
deriving DecidableEq, Repr

/-- Module-scoped state of one content-script instance. -/
structure CState where
  isProcessingCommand : Bool := false
  isMainScriptInstance : Bool := true
  storage : LockStorage := {}
  cachedVideoElement : Option Video := none
deriving DecidableEq, Repr

/-- content.js `acquireCommandLock` (lines 17-34); in the sequential model the
read-back verification always sees the value just written. -/
def acquireCommandLock (s : LockStorage) (now : Int) (lockId : String) : Bool × LockStorage :=
  if (truthyStr s.lock).isSome && (match s.expiry with
                                   | some e => decide (e > now)
                                   | none => false) then
    (false, s)
  else
    (true, { lock := some lockId, expiry := some (now + 1000) })

/-- content.js `releaseCommandLock` (lines 37-40). -/
def releaseCommandLock : LockStorage := {}

structure InstalledHandler where
  eventType : String
  capture : Bool
deriving DecidableEq, Repr

/-- The observable outcome of one message delivery: the response sent (if
any), the new module state, the `performVideoControl` run (if one started),
the capturing handlers installed on the document, and the delay of the
scheduled handler-removal timer. -/
structure DispatchOut where
  response : Option Resp
  newState : CState
  pvc : Option PVCResult
  installed : List InstalledHandler
  removalDelay : Option Nat
deriving DecidableEq, Repr

/-- content.js `chrome.runtime.onMessage` listener (lines 53-111).  Note that
this listener never reads `msg.timestamp`: after the in-flight flag and the
storage lock, a `controlVideo` message is processed unconditionally. -/
def handleMessage (st : CState) (doc : Doc) (now : Int) (lockId : String) (msg : Msg) :
    DispatchOut :=
  if msg.action == "ping" then
    ⟨some { success := true }, st, none, [], none⟩
  else if msg.action == "controlVideo" then
    if st.isProcessingCommand then
      ⟨some { success := false, reason := some "duplicate-instance" }, st, none, [], none⟩
    else if !(acquireCommandLock st.storage now lockId).1 then
      ⟨some { success := false, reason := some "locked" }, st, none, [], none⟩
    else
      let r := performVideoControl doc st.cachedVideoElement msg.command
      ⟨some { success := r.success },
       { st with isProcessingCommand := false,
                 storage := releaseCommandLock,
                 cachedVideoElement := r.cacheOut,
                 isMainScriptInstance := if r.success then st.isMainScriptInstance else false },
       some r,
       [⟨"keydown", true⟩, ⟨"keyup", true⟩],
       some 200⟩
  else ⟨none, st, none, [], none⟩

/-! ### background.js `executeCommandDirectly` (lines 124-465)

The self-contained routine injected when loading content.js fails.  Candidate
interactive elements are modelled by `doc.buttons` (all of tag BUTTON). -/

/-- The 3-button positional map (play/pause left, rewind middle, forward
right). -/
def positionMap (cmd : String) : Option Nat :=
  if cmd == "play-pause" then some 0
  else if cmd == "rewind" then some 1
  else if cmd == "fast-forward" then some 2
  else none

/-- `[class*="controls"], [class*="Controls"], [class*="player"], [class*="Player"]`. -/
def ecdGroupSel (g : Group) : Bool :=
  g.classSub "controls" || g.classSub "Controls" || g.classSub "player" || g.classSub "Player"

/-- The positional loop (lines 143-177): the first matching group with at
least 3 buttons has the command's slot clicked; returns its button id. -/
def ecdPositional (cmd : String) : List Group → Option Nat
  | [] => none
  | g :: rest =>
    match
      (if 3 ≤ g.buttons.length then
        match positionMap cmd with
        | some i => if i < g.buttons.length then (g.buttons[i]?).map Button.id else none
        | none => none
       else none) with
    | some bid => some bid
    | none => ecdPositional cmd rest

def ecdForwardAttrSel (b : Button) : Bool :=
  b.ariaSub "forward" || b.ariaSub "Forward" || b.ariaSub "10s" || b.ariaSub "+10" ||
  b.titleSub "forward" || b.titleSub "Forward" || b.titleSub "10s" || b.titleSub "+10" ||
  b.dataPlyr == some "fast-forward" ||
  b.hasClassB "plyr__controls__item--forward" || b.hasClassB "vjs-skip-forward-button" ||
  b.hasClassB "forward-button" || b.classSubB "forward"

def ecdForwardTextSel (b : Button) : Bool :=
  containsStr b.textLower "forward" || containsStr b.textLower "+10"

def ecdRewindAttrSel (b : Button) : Bool :=
  b.ariaSub "rewind" || b.ariaSub "Rewind" || b.ariaSub "back" || b.ariaSub "Back" ||
  b.ariaSub "-10" ||
  b.titleSub "rewind" || b.titleSub "Rewind" || b.titleSub "back" || b.titleSub "Back" ||
  b.titleSub "-10" ||
  b.dataPlyr == some "rewind" ||
  b.hasClassB "plyr__controls__item--rewind" || b.hasClassB "vjs-skip-backward-button" ||
  b.hasClassB "backward-button" || b.hasClassB "rewind-button" ||
  b.classSubB "rewind" || b.classSubB "back"

def ecdRewindTextSel (b : Button) : Bool :=
  containsStr b.textLower "rewind" || containsStr b.textLower "back" ||
  containsStr b.textLower "-10"

/-- The no-video `buttonSelectors` map. -/
def ecdSelMatch (cmd : String) (b : Button) : Bool :=
  if cmd == "play-pause" then
    b.ariaSub "play" || b.ariaSub "pause" || b.hasClassB "ytp-play-button" ||
    b.hasClassB "vjs-play-control" || b.titleSub "play" || b.titleSub "pause"
  else if cmd == "rewind" then
    b.ariaSub "rewind" || b.ariaSub "back" || b.ariaSub "previous" ||
    b.titleSub "rewind" || b.titleSub "back" || b.titleSub "-10"
  else if cmd == "fast-forward" then
    b.ariaSub "forward" || b.ariaSub "next" ||
    b.titleSub "forward" || b.titleSub "next" || b.titleSub "+10"
  else false

/-- The no-video `innerTextMap`. -/
def ecdTextTerms (cmd : String) : List String :=
  if cmd == "play-pause" then ["play", "pause"]
  else if cmd == "rewind" then ["rewind", "back", "prev", "-10"]
  else if cmd == "fast-forward" then ["forward", "next", "+10"]
  else []

def ecdInnerMatch (cmd : String) (b : Button) : Bool :=
  (ecdTextTerms cmd).any
    (fun term =>
      containsStr (lowerStr b.innerHTML) (lowerStr term) ||
      containsStr b.textLower (lowerStr term))

/-- The no-video last-resort `keyMap`. -/
def ecdKeyMap (cmd : String) : Option (String × Nat × Option (String × Nat)) :=
  if cmd == "fast-forward" then some ("ArrowRight", 39, none)
  else if cmd == "rewind" then some ("ArrowLeft", 37, none)
  else if cmd == "play-pause" then some ("k", 75, some (" ", 32))
  else none

structure EcdOut where
  result : Bool
  lastExec : Int
  clicks : List Nat := []
  seeks : List (Nat × Int) := []
  plays : List Nat := []
  pauses : List Nat := []
  keys : List KeyEv := []
deriving DecidableEq, Repr

/-- The body of `executeCommandDirectly` after the duplicate guard;
`newLast` is the stored last-execution timestamp for the output. -/
def ecdMain (doc : Doc) (newLast : Int) (cmd : String) : EcdOut :=
  match ecdPositional cmd (doc.groups.filter ecdGroupSel) with
  | some bid => { result := true, lastExec := newLast, clicks := [bid] }
  | none =>
    match doc.videos with
    | v0 :: vrest =>
      let video := ((v0 :: vrest).find? (fun v => !v.paused)).getD v0
      if cmd == "fast-forward" then
        match (doc.buttons.filter ecdForwardAttrSel) ++ (doc.buttons.filter ecdForwardTextSel) with
        | b :: _ => { result := true, lastExec := newLast, clicks := [b.id] }
        | [] =>
          { result := true, lastExec := newLast,
            keys := [⟨"keydown", "ArrowRight", 39, .documentEl, 0⟩,
                     ⟨"keyup", "ArrowRight", 39, .documentEl, 50⟩] }
      else if cmd == "rewind" then
        match (doc.buttons.filter ecdRewindAttrSel) ++ (doc.buttons.filter ecdRewindTextSel) with
        | b :: _ => { result := true, lastExec := newLast, clicks := [b.id] }
        | [] =>
          { result := true, lastExec := newLast,
            keys := [⟨"keydown", "ArrowLeft", 37, .documentEl, 0⟩,
                     ⟨"keyup", "ArrowLeft", 37, .documentEl, 50⟩] }
      else if cmd == "play-pause" then
        let lateSpace : List KeyEv :=
          [⟨"keydown", " ", 32, .documentEl, 100⟩, ⟨"keyup", " ", 32, .documentEl, 150⟩]
        if video.paused then
          { result := true, lastExec := newLast, plays := [video.id], keys := lateSpace }
        else
          { result := true, lastExec := newLast, pauses := [video.id], keys := lateSpace }
      else { result := false, lastExec := newLast }
    | [] =>
      match doc.buttons.filter (ecdSelMatch cmd) with
      | b :: bs => { result := true, lastExec := newLast, clicks := (b :: bs).map Button.id }
      | [] =>
        match doc.buttons.find? (ecdInnerMatch cmd) with
        | some b => { result := true, lastExec := newLast, clicks := [b.id] }
        | none =>
          match ecdKeyMap cmd with
          | some (k, kc, alt) =>
            { result := true, lastExec := newLast,
              keys :=
                [⟨"keydown", k, kc, .documentEl, 0⟩, ⟨"keyup", k, kc, .documentEl, 0⟩] ++
                (match alt with
                 | some (ak, akc) =>
                   [⟨"keydown", ak, akc, .documentEl, 0⟩, ⟨"keyup", ak, akc, .documentEl, 0⟩]
                 | none => []) }
          | none => { result := false, lastExec := newLast }

/-- background.js `executeCommandDirectly`: the timestamp duplicate guard
(blocked runs pretend success and change nothing), then `ecdMain`.
`lastExec` models the `jsmastery_last_command_execution` localStorage slot. -/
def executeCommandDirectly (doc : Doc) (lastExec : Int) (timestamp : Option Int)
    (cmd : String) : EcdOut :=
  match timestamp with
  | some ts =>
    if ts == 0 then ecdMain doc lastExec cmd
    else if ts - lastExec < 500 then { result := true, lastExec := lastExec }
    else ecdMain doc ts cmd
  | none => ecdMain doc lastExec cmd

/-! ### Auxiliary notions and helper lemmas -/

/-- The standalone outcome of each of the five strategies, in chain order. -/
def stageResults (doc : Doc) (cache : Option Video) (cmd : String) : List Bool :=
  [(exactButtonStage doc cmd).result,
   (patternStage cmd (trySpecificPlayerPatterns doc)).result,
   (tryHTML5VideoMethod doc cache cmd).result,
   (commandFallbackStage doc cmd).result,
   (tryKeyboardMethod doc cmd).result]

/-- Number of strategies a single pass enters: all leading failures plus, if
some strategy succeeds, the first succeeding one. -/
def passCount (rs : List Bool) : Nat :=
  (rs.takeWhile (fun r => r == false)).length + (if rs.any id then 1 else 0)

theorem performVideoControl_run (doc : Doc) (cache : Option Video) (cmd : String) :
    (performVideoControl doc cache cmd).strategies
      = strategyChain.take (passCount (stageResults doc cache cmd)) ∧
    (performVideoControl doc cache cmd).success = (stageResults doc cache cmd).any id := by
  cases h1 : (exactButtonStage doc cmd).result <;>
  cases h2 : (patternStage cmd (trySpecificPlayerPatterns doc)).result <;>
  cases h3 : (tryHTML5VideoMethod doc cache cmd).result <;>
  cases h4 : (commandFallbackStage doc cmd).result <;>
  cases h5 : (tryKeyboardMethod doc cmd).result <;>
  simp [performVideoControl, stageResults, passCount, strategyChain, h1, h2, h3, h4, h5]

theorem chainProceedsAux (doc : Doc) (cache : Option Video) (cmd : String)
    (h3 : (tryHTML5VideoMethod doc cache cmd).result = false)
    (hmem : Strategy.html5 ∈ (performVideoControl doc cache cmd).strategies) :
    Strategy.commandFallback ∈ (performVideoControl doc cache cmd).strategies ∧
    ((commandFallbackStage doc cmd).result = false →
      Strategy.keyboard ∈ (performVideoControl doc cache cmd).strategies) := by
  cases h1 : (exactButtonStage doc cmd).result <;>
  cases h2 : (patternStage cmd (trySpecificPlayerPatterns doc)).result <;>
  cases h4 : (commandFallbackStage doc cmd).result <;>
  simp_all [performVideoControl, strategyChain, h1, h2, h3, h4]

theorem pickBestVideo_first_playing (vs : List Video) :
    ∀ (best : Video) (bd : Int) (p : Video),
      vs.find? (fun v => !v.paused) = some p → pickBestVideo vs best bd = p := by
  induction vs with
  | nil => intro best bd p h; simp at h
  | cons v rest ih =>
    intro best bd p h
    by_cases hp : v.paused = true
    · rw [List.find?_cons_of_neg _ (by simp [hp])] at h
      simp only [pickBestVideo, hp, Bool.not_true, Bool.false_eq_true, if_false]
      by_cases hd : v.duration > bd
      · rw [if_pos hd]; exact ih v v.duration p h
      · rw [if_neg hd]; exact ih best bd p h
    · have hp' : v.paused = false := by simpa using hp
      rw [List.find?_cons_of_pos _ (by simp [hp'])] at h
      cases h
      simp [pickBestVideo, hp']

theorem pickBestVideo_max (vs : List Video) :
    ∀ (best : Video) (bd : Int),
      (∀ v ∈ vs, v.paused = true) → bd ≤ best.duration →
      bd ≤ (pickBestVideo vs best bd).duration ∧
      ∀ w ∈ vs, w.duration ≤ (pickBestVideo vs best bd).duration := by
  induction vs with
  | nil =>
    intro best bd _ hbd
    exact ⟨hbd, by simp⟩
  | cons v rest ih =>
    intro best bd hall hbd
    have hv : v.paused = true := hall v (by simp)
    simp only [pickBestVideo, hv, Bool.not_true, Bool.false_eq_true, if_false]
    by_cases hd : v.duration > bd
    · rw [if_pos hd]
      have h := ih v v.duration (fun w hw => hall w (by simp [hw])) le_rfl
      refine ⟨le_trans (le_of_lt hd) h.1, ?_⟩
      intro w hw
      rcases List.mem_cons.mp hw with rfl | hw'
      · exact h.1
      · exact h.2 w hw'
    · rw [if_neg hd]
      have hd' : v.duration ≤ bd := not_lt.mp hd
      have h := ih best bd (fun w hw => hall w (by simp [hw])) hbd
      refine ⟨h.1, ?_⟩
      intro w hw
      rcases List.mem_cons.mp hw with rfl | hw'
      · exact le_trans hd' h.1
      · exact h.2 w hw'

theorem patternStageFalse (cmd : String) (h : ∀ b, cmdMatch cmd b = false) :
    ∀ gs : List Group, (patternStage cmd gs).result = false := by
  intro gs
  induction gs with
  | nil => simp [patternStage]
  | cons g rest ih =>
    have hfind : g.buttons.find? (patternButtonMatch cmd) = none :=
      List.find?_eq_none.mpr (fun b _ => by simp [patternButtonMatch, h b])
    simp [patternStage, hfind, ih]

theorem ecdPositionalRewind (gs : List Group) (g : Group) (b : Button)
    (hg : gs.find? (fun g => decide (3 ≤ g.buttons.length)) = some g)
    (hb : g.buttons[1]? = some b) :
    ecdPositional "rewind" gs = some b.id := by
  induction gs with
  | nil => simp at hg
  | cons g0 rest ih =>
    by_cases h3 : 3 ≤ g0.buttons.length
    · rw [List.find?_cons_of_pos _ (by simpa using h3)] at hg
      cases hg
      have hpm : positionMap "rewind" = some 1 := by decide
      have hlt : 1 < g.buttons.length := by omega
      simp [ecdPositional, h3, hpm, hlt, hb]
    · rw [List.find?_cons_of_neg _ (by simpa using h3)] at hg
      simp [ecdPositional, h3, ih hg]

/-- The fixed seek offset of the direct HTML5 controller. -/
def seekOffset (cmd : String) : Int := if cmd == "fast-forward" then 10 else -10

/-! ### Concrete scenario pages used by the claim theorems and witnesses -/

/-- Page button labeled "Rewind 10s" (C4 end-to-end scenario). -/
def rewindBtnW : Button := { id := 101, ariaLabel := some "Rewind 10s" }

/-- Page button labeled "Forward 10s" (C4 end-to-end scenario). -/
def forwardBtnW : Button := { id := 102, ariaLabel := some "Forward 10s" }

/-- C4 scenario page: both buttons inside a plyr controls group, the rewind
button first in document order. -/
def ffScenarioDoc : Doc :=
  { buttons := [rewindBtnW, forwardBtnW],
    groups := [{ id := 1, classes := ["plyr__controls"], buttons := [rewindBtnW, forwardBtnW] }] }

def posBtn0W : Button := { id := 201 }

def posBtn1W : Button := { id := 202 }

def posBtn2W : Button := { id := 203 }

/-- C5 scenario: three adjacent unlabeled buttons in a generic controls
container. -/
def posGroupW : Group :=
  { id := 2, classes := ["video-controls"], buttons := [posBtn0W, posBtn1W, posBtn2W] }

def posScenarioDoc : Doc := { buttons := [posBtn0W, posBtn1W, posBtn2W], groups := [posGroupW] }

/-- Two paused videos; the second has the longest duration (C6 witness). -/
def vShortW : Video := { id := 301, paused := true, currentTime := 5, duration := 50 }

def vLongW : Video := { id := 302, paused := true, currentTime := 0, duration := 200 }

def doc6W : Doc := { videos := [vShortW, vLongW] }

/-- A paused video sitting at its lower position bound (C3 witness). -/
def vBoundW : Video := { id := 303, paused := true, currentTime := 0, duration := 100 }

/-- A content-script instance with a command already in flight (C7 witness). -/
def busyStateW : CState := { isProcessingCommand := true }

/-! ### Claim theorems -/

/-- C1: the claim says a `controlVideo` delivery whose caller-supplied
timestamp lies less than ~500ms after the previous command's timestamp is
rejected by the page-context dispatcher with `success: false` and without a
second `performVideoControl` run.  The content.js listener, however, never
reads `msg.timestamp` (its behaviour is invariant under the timestamp field),
and a concrete second delivery 300ms after the first is processed in full:
it responds `success: true` and starts another `performVideoControl` run. -/
theorem C1_content_listener_ignores_timestamp :
    (∀ (st : CState) (doc : Doc) (now : Int) (lockId : String) (a c : String)
       (t t' : Option Int),
      handleMessage st doc now lockId ⟨a, c, t⟩ = handleMessage st doc now lockId ⟨a, c, t'⟩) ∧
    (handleMessage
        (handleMessage {} {} 1000 "lock-a" ⟨"controlVideo", "play-pause", some 1000⟩).newState
        {} 1300 "lock-b" ⟨"controlVideo", "play-pause", some 1300⟩).response
      = some { success := true } ∧
    ((handleMessage
        (handleMessage {} {} 1000 "lock-a" ⟨"controlVideo", "play-pause", some 1000⟩).newState
        {} 1300 "lock-b" ⟨"controlVideo", "play-pause", some 1300⟩).pvc).isSome = true :=
  ⟨fun _ _ _ _ _ _ _ _ => rfl, by decide, by decide⟩

/-- C2: `performVideoControl` tries the five strategies in strict priority
order: the entered stages are exactly an initial segment of the chain ending
at the first success (or the whole chain), the overall result is true iff
some stage succeeded, and no stage is entered twice (one pass, no retry). -/
theorem C2_strategy_chain_single_pass (doc : Doc) (cache : Option Video) (cmd : String) :
    (performVideoControl doc cache cmd).strategies
      = strategyChain.take (passCount (stageResults doc cache cmd)) ∧
    (performVideoControl doc cache cmd).success = (stageResults doc cache cmd).any id ∧
    (performVideoControl doc cache cmd).strategies.Nodup := by
  refine ⟨(performVideoControl_run doc cache cmd).1, (performVideoControl_run doc cache cmd).2,
    ?_⟩
  rw [(performVideoControl_run doc cache cmd).1]
  exact (List.take_sublist _ _).nodup (by decide)

/-- C3: for fast-forward and rewind the direct HTML5 controller assigns the
selected element's position the fixed ±10 second offset (clamped by media
semantics) and reports success iff the resulting position differs from the
original by more than the epsilon 1; when it fails and the chain reached it,
the dispatcher proceeds to the command-specific fallback and, if that also
fails, to keyboard simulation. -/
theorem C3_html5_seek_epsilon_and_fallthrough (doc : Doc) (cache : Option Video)
    (v : Video) (cmd : String)
    (hv : html5SelectedVideo doc cache = some v)
    (hcmd : cmd = "fast-forward" ∨ cmd = "rewind") :
    (tryHTML5VideoMethod doc cache cmd).seeks = [(v.id, v.currentTime + seekOffset cmd)] ∧
    ((tryHTML5VideoMethod doc cache cmd).result = true ↔
      1 < |seekTo v (v.currentTime + seekOffset cmd) - v.currentTime|) ∧
    ((tryHTML5VideoMethod doc cache cmd).result = false →
      Strategy.html5 ∈ (performVideoControl doc cache cmd).strategies →
      Strategy.commandFallback ∈ (performVideoControl doc cache cmd).strategies ∧
      ((commandFallbackStage doc cmd).result = false →
        Strategy.keyboard ∈ (performVideoControl doc cache cmd).strategies)) := by
  refine ⟨?_, ?_, fun h3 hm => chainProceedsAux doc cache cmd h3 hm⟩ <;>
  rcases hcmd with rfl | rfl <;>
  simp [tryHTML5VideoMethod, hv, seekOffset, sub_eq_add_neg]

/-- C3 witness: a rewind on a video already at position 0 performs the -10
seek, reports failure, and the chain proceeds to the fallback and keyboard
strategies. -/
theorem C3_witness :
    Strategy.commandFallback ∈ (performVideoControl {} (some vBoundW) "rewind").strategies ∧
    Strategy.keyboard ∈ (performVideoControl {} (some vBoundW) "rewind").strategies := by
  have h := C3_html5_seek_epsilon_and_fallthrough {} (some vBoundW) vBoundW "rewind" rfl
    (Or.inr rfl)
  have h3 := h.2.2 (by decide) (by decide)
  exact ⟨h3.1, h3.2 (by decide)⟩

/-- C4: a button carrying rewind-indicating terms is never selected by the
fast-forward pattern matcher (the exclusion wins any tie), and on the page
with a "Forward 10s" button and a "Rewind 10s" button, fast-forward clicks
only the former. -/
theorem C4_fast_forward_never_selects_rewind :
    (∀ (bs : List Button) (b : Button),
      bs.find? (patternButtonMatch "fast-forward") = some b → ffRewindExclusion b = false) ∧
    (performVideoControl ffScenarioDoc none "fast-forward").clicks = [102] ∧
    (performVideoControl ffScenarioDoc none "fast-forward").success = true := by
  refine ⟨?_, by decide, by decide⟩
  intro bs b h
  have hp := List.find?_some h
  have e1 : (("fast-forward" : String) == "play-pause") = false := by decide
  have e2 : (("fast-forward" : String) == "rewind") = false := by decide
  have e3 : (("fast-forward" : String) == "fast-forward") = true := by decide
  simp [patternButtonMatch, cmdMatch, e1, e2, e3] at hp
  exact hp.2.2

/-- C4 witness: the "Forward 10s" button is selectable and carries no
rewind-indicating terms. -/
theorem C4_witness : ffRewindExclusion forwardBtnW = false :=
  C4_fast_forward_never_selects_rewind.1 [forwardBtnW] forwardBtnW (by decide)

/-- C5: the positional fallback of the direct-injection routine assumes slot
order (play-pause, rewind, fast-forward); on the first generic-controls group
with at least three buttons, invoking rewind clicks exactly the button at
index 1 and succeeds. -/
theorem C5_positional_fallback_rewind (doc : Doc) (lastExec ts : Int) (g : Group) (b : Button)
    (hts0 : ts ≠ 0) (hfresh : 500 ≤ ts - lastExec)
    (hg : (doc.groups.filter ecdGroupSel).find? (fun g => decide (3 ≤ g.buttons.length))
      = some g)
    (hb : g.buttons[1]? = some b) :
    positionMap "play-pause" = some 0 ∧ positionMap "rewind" = some 1 ∧
    positionMap "fast-forward" = some 2 ∧
    (executeCommandDirectly doc lastExec (some ts) "rewind").result = true ∧
    (executeCommandDirectly doc lastExec (some ts) "rewind").clicks = [b.id] := by
  have hpos := ecdPositionalRewind _ g b hg hb
  have hts : (ts == 0) = false := by simp [hts0]
  have hlt : ¬(ts - lastExec < 500) := by omega
  refine ⟨by decide, by decide, by decide, ?_, ?_⟩ <;>
  simp [executeCommandDirectly, hts, hlt, ecdMain, hpos]

/-- C5 witness: three unlabeled adjacent buttons in a "video-controls"
container; rewind activates the middle one (id 202). -/
theorem C5_witness :
    (executeCommandDirectly posScenarioDoc 0 (some 1000) "rewind").result = true ∧
    (executeCommandDirectly posScenarioDoc 0 (some 1000) "rewind").clicks = [202] := by
  have h := C5_positional_fallback_rewind posScenarioDoc 0 1000 posGroupW posBtn1W
    (by decide) (by decide) (by decide) (by decide)
  exact ⟨h.2.2.2.1, h.2.2.2.2⟩

/-- C6: on first discovery (empty cache) over a page with at least one media
element, the direct controller selects the first currently-playing video if
one exists, and otherwise a video of maximal duration; the selection is
cached. -/
theorem C6_media_element_selection (doc : Doc) (v0 : Video) (vs : List Video) (cmd : String)
    (hvs : doc.videos = v0 :: vs)
    (hnn : ∀ v ∈ doc.videos, 0 ≤ v.duration) :
    ∃ u, html5SelectedVideo doc none = some u ∧
      (tryHTML5VideoMethod doc none cmd).cacheOut = some u ∧
      (∀ p, doc.videos.find? (fun v => !v.paused) = some p → u = p) ∧
      (doc.videos.find? (fun v => !v.paused) = none →
        ∀ w ∈ doc.videos, w.duration ≤ u.duration) := by
  have hdisc : discoverVideos doc = v0 :: vs := by simp [discoverVideos, hvs]
  have hsel : html5SelectedVideo doc none = some (pickBestVideo (v0 :: vs) v0 0) := by
    simp [html5SelectedVideo, hdisc]
  refine ⟨pickBestVideo (v0 :: vs) v0 0, hsel, ?_, ?_, ?_⟩
  · cases hc1 : cmd == "fast-forward" <;>
    cases hc2 : cmd == "rewind" <;>
    cases hc3 : cmd == "play-pause" <;>
    cases hpse : (pickBestVideo (v0 :: vs) v0 0).paused <;>
    simp [tryHTML5VideoMethod, hsel, hc1, hc2, hc3, hpse]
  · intro p hp
    rw [hvs] at hp
    exact pickBestVideo_first_playing _ _ _ _ hp
  · intro hnone w hw
    rw [hvs] at hnone hw
    have hall : ∀ v ∈ v0 :: vs, v.paused = true := by
      intro v hv
      have := List.find?_eq_none.mp hnone v hv
      simpa using this
    have h0 : (0 : Int) ≤ v0.duration := hnn v0 (by rw [hvs]; simp)
    exact (pickBestVideo_max _ v0 0 hall h0).2 w hw

/-- C6 witness: two paused videos of durations 50 and 200; the 200-second
video (id 302) is selected and cached. -/
theorem C6_witness :
    ∃ u, html5SelectedVideo doc6W none = some u ∧
      (tryHTML5VideoMethod doc6W none "play-pause").cacheOut = some u ∧
      (∀ p, doc6W.videos.find? (fun v => !v.paused) = some p → u = p) ∧
      (doc6W.videos.find? (fun v => !v.paused) = none →
        ∀ w ∈ doc6W.videos, w.duration ≤ u.duration) :=
  C6_media_element_selection doc6W vShortW [vLongW] "play-pause" rfl (by decide)

/-- C7: while the module-scoped `isProcessingCommand` flag is set, a
`controlVideo` message is rejected with `success: false` (reason
duplicate-instance), no `performVideoControl` run starts, and the state is
unchanged — no two strategy chains run concurrently in one page context. -/
theorem C7_reentrancy_guard (st : CState) (doc : Doc) (now : Int) (lockId : String)
    (cmd : String) (ts : Option Int)
    (h : st.isProcessingCommand = true) :
    (handleMessage st doc now lockId ⟨"controlVideo", cmd, ts⟩).response
      = some { success := false, reason := some "duplicate-instance" } ∧
    (handleMessage st doc now lockId ⟨"controlVideo", cmd, ts⟩).pvc = none ∧
    (handleMessage st doc now lockId ⟨"controlVideo", cmd, ts⟩).newState = st := by
  have e4 : (("controlVideo" : String) == "ping") = false := by decide
  have e5 : (("controlVideo" : String) == "controlVideo") = true := by decide
  simp [handleMessage, e4, e5, h]

/-- C7 witness: a busy instance rejects a rewind command outright. -/
theorem C7_witness :
    (handleMessage busyStateW {} 0 "L" ⟨"controlVideo", "rewind", none⟩).response
      = some { success := false, reason := some "duplicate-instance" } ∧
    (handleMessage busyStateW {} 0 "L" ⟨"controlVideo", "rewind", none⟩).pvc = none ∧
    (handleMessage busyStateW {} 0 "L" ⟨"controlVideo", "rewind", none⟩).newState = busyStateW :=
  C7_reentrancy_guard busyStateW {} 0 "L" "rewind" none rfl

/-- C8: for the three known commands the keyboard simulation reports success
whenever it runs (its body cannot fail in the model), so `performVideoControl`
never returns false for them and the all-strategies-exhausted outcome is
unreachable. -/
theorem C8_keyboard_last_resort_total (doc : Doc) (cache : Option Video) (cmd : String)
    (hcmd : cmd = "fast-forward" ∨ cmd = "rewind" ∨ cmd = "play-pause") :
    (tryKeyboardMethod doc cmd).result = true ∧
    (performVideoControl doc cache cmd).success = true := by
  have hk : (tryKeyboardMethod doc cmd).result = true := by
    rcases hcmd with rfl | rfl | rfl <;> rfl
  refine ⟨hk, ?_⟩
  rw [(performVideoControl_run doc cache cmd).2]
  simp [stageResults, hk]

/-- C8 witness: rewind on an empty page still reports success. -/
theorem C8_witness :
    (tryKeyboardMethod {} "rewind").result = true ∧
    (performVideoControl {} none "rewind").success = true :=
  C8_keyboard_last_resort_total {} none "rewind" (Or.inr (Or.inl rfl))

/-- C9: for a command outside the three known ones, every strategy is falsy
(`findExactButton` is null, the pattern tier matches nothing, the HTML5 and
keyboard methods return false), `performVideoControl` fails, and any response
the dispatcher sends carries `success: false`. -/
theorem C9_unknown_command_all_falsy (st : CState) (doc : Doc) (cache : Option Video)
    (now : Int) (lockId : String) (ts : Option Int) (cmd : String)
    (h1 : cmd ≠ "fast-forward") (h2 : cmd ≠ "rewind") (h3 : cmd ≠ "play-pause") :
    findExactButton doc cmd = none ∧
    (patternStage cmd (trySpecificPlayerPatterns doc)).result = false ∧
    (tryHTML5VideoMethod doc cache cmd).result = false ∧
    (tryKeyboardMethod doc cmd).result = false ∧
    (performVideoControl doc cache cmd).success = false ∧
    (∀ r, (handleMessage st doc now lockId ⟨"controlVideo", cmd, ts⟩).response = some r →
      r.success = false) := by
  have e1 : (cmd == "fast-forward") = false := by simp [h1]
  have e2 : (cmd == "rewind") = false := by simp [h2]
  have e3 : (cmd == "play-pause") = false := by simp [h3]
  have hfe : findExactButton doc cmd = none := by
    simp [findExactButton, dataPlyrValue, e1, e2, e3]
  have hcm : ∀ b, cmdMatch cmd b = false := fun b => by simp [cmdMatch, e1, e2, e3]
  have hps := patternStageFalse cmd hcm (trySpecificPlayerPatterns doc)
  have hh5 : ∀ ca : Option Video, (tryHTML5VideoMethod doc ca cmd).result = false := by
    intro ca
    rcases hsel : html5SelectedVideo doc ca with _ | v <;>
    simp [tryHTML5VideoMethod, hsel, e1, e2, e3]
  have hkb : (tryKeyboardMethod doc cmd).result = false := by
    simp [tryKeyboardMethod, keyMapEntry, e1, e2, e3]
  have hcf : (commandFallbackStage doc cmd).result = false := by
    simp [commandFallbackStage, e1, e2, e3]
  have hes : (exactButtonStage doc cmd).result = false := by simp [exactButtonStage, hfe]
  have hsucc : ∀ ca : Option Video, (performVideoControl doc ca cmd).success = false := by
    intro ca
    rw [(performVideoControl_run doc ca cmd).2]
    simp [stageResults, hes, hps, hh5 ca, hcf, hkb]
  refine ⟨hfe, hps, hh5 cache, hkb, hsucc cache, ?_⟩
  intro r hr
  have e4 : (("controlVideo" : String) == "ping") = false := by decide
  have e5 : (("controlVideo" : String) == "controlVideo") = true := by decide
  by_cases hp : st.isProcessingCommand
  · simp [handleMessage, e4, e5, hp] at hr
    rw [← hr]
  · by_cases hl : (acquireCommandLock st.storage now lockId).1
    · simp [handleMessage, e4, e5, hp, hl] at hr
      rw [← hr]
      exact hsucc st.cachedVideoElement
    · simp [handleMessage, e4, e5, hp, hl] at hr
      rw [← hr]

/-- C9 witness: the unknown command "stop" on an empty page. -/
theorem C9_witness :
    findExactButton {} "stop" = none ∧
    (patternStage "stop" (trySpecificPlayerPatterns {})).result = false ∧
    (tryHTML5VideoMethod {} none "stop").result = false ∧
    (tryKeyboardMethod {} "stop").result = false ∧
    (performVideoControl {} none "stop").success = false ∧
    (∀ r, (handleMessage {} {} 0 "L" ⟨"controlVideo", "stop", none⟩).response = some r →
      r.success = false) :=
  C9_unknown_command_all_falsy {} {} none 0 "L" none "stop" (by decide) (by decide) (by decide)

/-- C10: an accepted `controlVideo` command installs capturing keydown and
keyup handlers on the document before the strategy chain runs, schedules
their removal 200ms after the command settles, and the handler cancels any
key event (preventDefault, stopPropagation, stopImmediatePropagation). -/
theorem C10_key_event_suppression (st : CState) (doc : Doc) (now : Int) (lockId : String)
    (cmd : String) (ts : Option Int)
    (hp : st.isProcessingCommand = false)
    (hl : (acquireCommandLock st.storage now lockId).1 = true) :
    (handleMessage st doc now lockId ⟨"controlVideo", cmd, ts⟩).installed
      = [⟨"keydown", true⟩, ⟨"keyup", true⟩] ∧
    (handleMessage st doc now lockId ⟨"controlVideo", cmd, ts⟩).removalDelay = some 200 ∧
    (handleMessage st doc now lockId ⟨"controlVideo", cmd, ts⟩).pvc
      = some (performVideoControl doc st.cachedVideoElement cmd) ∧
    ∀ e : KeyEventState, preventDefaultOnce e = ⟨true, true, true⟩ := by
  have e4 : (("controlVideo" : String) == "ping") = false := by decide
  have e5 : (("controlVideo" : String) == "controlVideo") = true := by decide
  simp [handleMessage, e4, e5, hp, hl, preventDefaultOnce]

/-- C10 witness: a fresh instance accepting a play-pause command. -/
theorem C10_witness :
    (handleMessage {} {} 0 "L" ⟨"controlVideo", "play-pause", none⟩).installed
      = [⟨"keydown", true⟩, ⟨"keyup", true⟩] ∧
    (handleMessage {} {} 0 "L" ⟨"controlVideo", "play-pause", none⟩).removalDelay = some 200 ∧
    (handleMessage {} {} 0 "L" ⟨"controlVideo", "play-pause", none⟩).pvc
      = some (performVideoControl {} none "play-pause") ∧
    ∀ e : KeyEventState, preventDefaultOnce e = ⟨true, true, true⟩ :=
  C10_key_event_suppression {} {} 0 "L" "play-pause" none rfl (by decide)

end VideoControl
